import Mathlib

/-!
Verification development for the data-extraction agent script (`ai_agent.py`).

The script is sequential glue code: it loads a table, deduplicates the values
of a user-selected column, substitutes each value into a prompt template,
invokes an external agent once per value, and collects (entity, answer)
records; helper functions wrap a web-search HTTP call, a model-API call and
Google-Sheets read/update calls.  We embed each of these pieces shallowly:
external calls become explicit outcome parameters (`Except` values), Python
exceptions become `Except.error`, and the Streamlit UI side effects
(`st.error`, `st.write`, progress bar) are elided since no claim depends on
their content.
-/

/-- Python exceptions that the embedded code can raise or catch.  `typeError`
is what `str.replace` raises when its second argument is not a string;
`indexError` is what subscripting a too-short list raises; `exn` stands for
any other exception (network, auth, quota, agent failures, ...). -/
inductive PyError where
  | typeError
  | indexError
  | exn
deriving DecidableEq, Repr

/-- A value held in a pandas column.  The script's per-entity loop only ever
feeds such values to `str.replace`, which succeeds on strings and raises
`TypeError` on anything else; one non-string representative (`int`) suffices
to embed that distinction. -/
inductive PyVal where
  | str (s : String)
  | int (n : Int)
deriving DecidableEq, Repr

/-- Whether a pandas cell value is a Python string. -/
def PyVal.isStr : PyVal → Bool
  | .str _ => true
  | .int _ => false

/-- One row of the results table built by the extraction loop:
`{"Entity": entity, "Extracted Data": extractedData}` in the source. -/
structure ExtractionRecord where
  entity : PyVal
  extractedData : String
deriving DecidableEq, Repr

/-- Byte-level embedding of Python's `s.replace(pat, rep)` on the character
list of `s`: scan left to right, and at each position replace the leftmost
occurrence of `pat` and resume after it.  (The empty-pattern case, which
Python treats specially, is irrelevant here: the only pattern used by the
script is the non-empty token `"\x7bentity\x7d"`, and the guard makes the
function total.) -/
def replaceList (pat rep : List Char) : List Char → List Char
  | [] => []
  | c :: rest =>
    if pat ≠ [] ∧ pat.isPrefixOf (c :: rest) then
      rep ++ replaceList pat rep ((c :: rest).drop pat.length)
    else
      c :: replaceList pat rep rest
termination_by s => s.length
decreasing_by
  all_goals rename_i h
  · have hpos : 0 < pat.length := List.length_pos.mpr h.1
    simp only [List.length_drop, List.length_cons]
    omega
  · simp only [List.length_cons]
    omega

unseal replaceList

/-- Python's `s.replace(pat, rep)` for strings. -/
def pyReplace (s pat rep : String) : String :=
  String.mk (replaceList pat.data rep.data s.data)

/-- Decidable occurrence test: does `pat` occur as a contiguous subsequence
of `s`?  (Python's `pat in s`.) -/
def occursIn (pat : List Char) : List Char → Bool
  | [] => pat.isEmpty
  | c :: rest => pat.isPrefixOf (c :: rest) || occursIn pat rest

/-- Line 190 of the script, `prompt_template.replace("\x7bentity\x7d", entity)`:
on a string entity this is literal substring replacement; on a non-string
entity `str.replace` raises `TypeError`.  This line sits OUTSIDE the
per-entity `try` block. -/
def replaceEntity (tmpl : String) (v : PyVal) : Except PyError String :=
  match v with
  | .str s => .ok (pyReplace tmpl "{entity}" s)
  | .int _ => .error .typeError

/-- `df[col].unique()` keeps the first occurrence of each distinct value, in
order of first appearance, tracking the set of values already seen. -/
def dedupFirstAux (seen : List PyVal) : List PyVal → List PyVal
  | [] => []
  | x :: xs =>
    if x ∈ seen then dedupFirstAux seen xs
    else x :: dedupFirstAux (x :: seen) xs

/-- `df[main_column].unique()`: distinct values in first-occurrence order. -/
def dedupFirst (l : List PyVal) : List PyVal :=
  dedupFirstAux [] l

/-- Lines 189-204 of the script: the body of the extraction loop over a list
of (already deduplicated) entities.  For each entity the template is
instantiated (outside the `try`, so a `TypeError` aborts the whole loop and
the accumulated records are discarded), then the agent is invoked inside
`try/except`: a raised exception is converted into the fixed marker record
`"Error during extraction"` and the loop continues. -/
def extractLoop (agent : String → Except PyError String) (tmpl : String) :
    List PyVal → Except PyError (List ExtractionRecord)
  | [] => .ok []
  | e :: rest =>
    match replaceEntity tmpl e with
    | .error err => .error err
    | .ok formattedPrompt =>
      let record : ExtractionRecord :=
        match agent formattedPrompt with
        | .ok resp => ⟨e, resp⟩
        | .error _ => ⟨e, "Error during extraction"⟩
      match extractLoop agent tmpl rest with
      | .error err => .error err
      | .ok recs => .ok (record :: recs)

/-- Lines 185-207: the batch extraction driver.  It iterates
`df[main_column].unique()` — the distinct values of the selected column in
first-occurrence order — and runs the extraction loop over them.  `agent`
abstracts `agent.run`, mapping a formatted prompt to the agent's answer or a
raised exception. -/
def runExtraction (agent : String → Except PyError String) (tmpl : String)
    (column : List PyVal) : Except PyError (List ExtractionRecord) :=
  extractLoop agent tmpl (dedupFirst column)

/-- The record produced for one string entity `s` when the loop reaches it:
the agent's answer on success, the fixed marker on a raised exception. -/
def recordForStr (agent : String → Except PyError String) (tmpl : String)
    (s : String) : ExtractionRecord :=
  match agent (pyReplace tmpl "{entity}" s) with
  | .ok resp => ⟨.str s, resp⟩
  | .error _ => ⟨.str s, "Error during extraction"⟩

/-- `recordForStr` lifted to column values; only ever used on all-string
columns, where the `.int` branch is unreachable. -/
def recordForVal (agent : String → Except PyError String) (tmpl : String) :
    PyVal → ExtractionRecord
  | .str s => recordForStr agent tmpl s
  | .int n => ⟨.int n, ""⟩

/-- One choice of the model API's chat-completion response;
`choice.message.content` is the response text. -/
structure Choice where
  content : String
deriving DecidableEq, Repr

/-- The model API's chat-completion response object: a list of choices. -/
structure ChatCompletion where
  choices : List Choice
deriving DecidableEq, Repr

/-- `chat_completion.choices[0]`: Python list subscripting, which raises
`IndexError` on an empty list. -/
def choicesFirst (comp : ChatCompletion) : Except PyError Choice :=
  match comp.choices with
  | [] => .error .indexError
  | c :: _ => .ok c

/-- Lines 90-111, `query_groq`: the whole body sits in one `try/except`.
`callResult` is the outcome of `client.chat.completions.create(...)` — a
completion object or a raised exception.  On success the function returns
`chat_completion.choices[0].message.content`; any exception (including the
`IndexError` from an empty `choices` list) falls into the `except` branch,
which shows a UI message and returns the literal string `"Error"`. -/
def query_groq (callResult : Except PyError ChatCompletion) : String :=
  match callResult >>= choicesFirst with
  | .ok c => c.content
  | .error _ => "Error"

/-- One search-result item: an opaque mapping of search-result fields. -/
structure ResultItem where
  fields : List (String × String)
deriving DecidableEq, Repr

/-- The outcome of `requests.get(search_url, params=params)` followed by
`response.json()`: either an HTTP response carrying a status code and the
parsed body's `"organic_results"` field (`none` when the key is absent), or
a raised transport exception. -/
inductive SearchOutcome where
  | response (status_code : Nat) (organic_results : Option (List ResultItem))
  | exn (e : PyError)
deriving DecidableEq, Repr

/-- Lines 72-87, `search_web` (minus the rate-limiting decorators, which live
in the external `ratelimit` package): on a 200 response it returns
`response.json().get("organic_results", [])`; on any other status it shows
UI error messages and returns `[]`; any exception raised inside the `try` is
caught, a message is shown, and `[]` is returned. -/
def search_web (outcome : SearchOutcome) : List ResultItem :=
  match outcome with
  | .response status organic => if status = 200 then organic.getD [] else []
  | .exn _ => []

/-- Line 66 of the script: `MAX_CALLS = 15`. -/
def MAX_CALLS : Nat := 15

/-- Line 67 of the script: `PERIOD = 60`. -/
def PERIOD : Nat := 60

/-- The dataframe built by `read_google_sheet` from the sheet's values:
`pd.DataFrame(values[1:], columns=values[0])`. -/
structure DataFrame where
  header : List String
  rows : List (List String)
deriving DecidableEq, Repr

/-- Lines 34-47, `read_google_sheet`: `fetch` is the outcome of the
credentials/service/`get(...).execute()` chain, yielding the response's
`"values"` field (`none` when absent, defaulted to `[]` by `.get`).  The
dataframe is built from `values[1:]` with `values[0]` as header; on an empty
values list, `values[0]` raises `IndexError`, which the surrounding
`try/except` catches.  EVERY failure is swallowed: a message is shown and
`None` is returned. -/
def read_google_sheet (fetch : Except PyError (Option (List (List String)))) :
    Option DataFrame :=
  match fetch with
  | .error _ => none
  | .ok values =>
    match values.getD [] with
    | [] => none
    | header :: rows => some ⟨header, rows⟩

/-- The result object of a successful Sheets `values().update().execute()`. -/
structure UpdateResult where
  updatedCells : Nat
deriving DecidableEq, Repr

/-- Lines 49-62, `update_google_sheet`: `call` is the outcome of the
`update(...).execute()` chain.  On success the result is returned; on
failure the `except` branch shows a message and then RE-RAISES the caught
exception (`raise e`), so the error propagates past this helper — unlike the
read path. -/
def update_google_sheet (call : Except PyError UpdateResult) :
    Except PyError UpdateResult :=
  match call with
  | .ok result => .ok result
  | .error e => .error e

/-- Python's `s.split(sep)` for a one-character separator, on character
lists: split at every separator occurrence, keeping empty segments, so
`"".split(sep) == [""]` and `"a//b".split("/") == ["a", "", "b"]`. -/
def splitOnChar (sep : Char) : List Char → List (List Char)
  | [] => [[]]
  | c :: rest =>
    if c = sep then [] :: splitOnChar sep rest
    else
      match splitOnChar sep rest with
      | [] => [[c]]
      | g :: gs => (c :: g) :: gs

/-- Python's `s.split(sep)` for strings and a one-character separator. -/
def pySplit (s : String) (sep : Char) : List String :=
  (splitOnChar sep s.data).map String.mk

/-- Line 144: `google_sheet_url.split("/")[5]` — split the URL on `"/"` and
subscript the 6th segment, raising `IndexError` when the split has fewer
than 6 parts. -/
def extractSpreadsheetId (url : String) : Except PyError String :=
  match (pySplit url '/').get? 5 with
  | some s => .ok s
  | none => .error .indexError

/-- Lines 142-150: the spreadsheet-URL handling block.  The subscript and the
emptiness check `if not spreadsheet_id` sit inside a `try/except Exception`,
so a short URL's `IndexError` is caught and surfaced as a UI message; an
empty 6th segment is reported as an invalid URL.  The result is the
spreadsheet id actually used, or `none` when the URL was treated as
invalid. -/
def parsedSpreadsheetId (url : String) : Option String :=
  match extractSpreadsheetId url with
  | .ok s => if s = "" then none else some s
  | .error _ => none

/-- The arguments of the `update_google_sheet` call issued by the sync step. -/
structure SheetUpdateCall where
  spreadsheet_id : String
  range_name : String
  data : List (List PyVal)
deriving DecidableEq, Repr

/-- One row of `extracted_df.values.tolist()`: the record's entity value and
its extracted text, in the dataframe's column order. -/
def rowOfRecord (r : ExtractionRecord) : List PyVal :=
  [r.entity, .str r.extractedData]

/-- Lines 210 and 243-261: the Google-Sheet sync step.  It runs only inside
`if extracted_data:` (records non-empty), only when the data source is
Google Sheets with a truthy spreadsheet id, and only when the user clicks
the "Update Google Sheet" button.  It then builds
`[["Entity", "Extracted Data"]] + extracted_df.values.tolist()` and calls
`update_google_sheet(spreadsheet_id, "Sheet1!C1", data_to_update)`.  The
value is the update call issued, or `none` when the step does not run. -/
def sheetSyncStep (dataSourceIsSheets : Bool) (spreadsheet_id : Option String)
    (updateClicked : Bool) (records : List ExtractionRecord) :
    Option SheetUpdateCall :=
  match spreadsheet_id with
  | none => none
  | some sid =>
    if records ≠ [] ∧ dataSourceIsSheets ∧ sid ≠ "" ∧ updateClicked then
      some ⟨sid, "Sheet1!C1",
        [[.str "Entity", .str "Extracted Data"]] ++ records.map rowOfRecord⟩
    else
      none

/-- A concrete agent that always answers, used to instantiate driver
theorems on concrete inputs. -/
def alwaysOkAgent : String → Except PyError String :=
  fun _ => Except.ok "ok"

/-- A concrete agent that raises exactly on the prompt `"find B"`, used to
instantiate the failure-isolation theorem on a concrete input. -/
def failsOnBAgent : String → Except PyError String :=
  fun p => if p = "find B" then Except.error PyError.exn else Except.ok "answer"

/-! ### General lemmas about the embedded operations -/

theorem mem_dedupFirstAux {v : PyVal} :
    ∀ (l seen : List PyVal), v ∈ dedupFirstAux seen l ↔ v ∈ l ∧ v ∉ seen := by
  intro l
  induction l with
  | nil => intro seen; simp [dedupFirstAux]
  | cons x xs ih =>
    intro seen
    by_cases hx : x ∈ seen
    · rw [dedupFirstAux, if_pos hx, ih seen]
      constructor
      · rintro ⟨hv, hns⟩
        exact ⟨List.mem_cons_of_mem x hv, hns⟩
      · rintro ⟨hv, hns⟩
        rcases List.mem_cons.mp hv with rfl | hv
        · exact absurd hx hns
        · exact ⟨hv, hns⟩
    · rw [dedupFirstAux, if_neg hx, List.mem_cons, ih (x :: seen)]
      constructor
      · rintro (rfl | ⟨hv, hns⟩)
        · exact ⟨List.mem_cons_self _ xs, hx⟩
        · exact ⟨List.mem_cons_of_mem x hv,
            fun hc => hns (List.mem_cons_of_mem x hc)⟩
      · rintro ⟨hv, hns⟩
        by_cases hvx : v = x
        · exact Or.inl hvx
        · refine Or.inr ⟨?_, ?_⟩
          · rcases List.mem_cons.mp hv with rfl | hv
            · exact absurd rfl hvx
            · exact hv
          · intro hc
            rcases List.mem_cons.mp hc with rfl | hc
            · exact hvx rfl
            · exact hns hc

theorem dedupFirstAux_sublist :
    ∀ (l seen : List PyVal), (dedupFirstAux seen l).Sublist l := by
  intro l
  induction l with
  | nil => intro seen; simp [dedupFirstAux]
  | cons x xs ih =>
    intro seen
    by_cases hx : x ∈ seen
    · rw [dedupFirstAux, if_pos hx]
      exact (ih seen).trans (List.sublist_cons_self x xs)
    · rw [dedupFirstAux, if_neg hx]
      exact (ih (x :: seen)).cons₂ x

theorem dedupFirstAux_nodup :
    ∀ (l seen : List PyVal), (dedupFirstAux seen l).Nodup := by
  intro l
  induction l with
  | nil => intro seen; simp [dedupFirstAux]
  | cons x xs ih =>
    intro seen
    by_cases hx : x ∈ seen
    · rw [dedupFirstAux, if_pos hx]
      exact ih seen
    · rw [dedupFirstAux, if_neg hx]
      refine List.nodup_cons.mpr ⟨?_, ih (x :: seen)⟩
      intro hc
      exact ((mem_dedupFirstAux xs (x :: seen)).mp hc).2 (List.mem_cons_self x seen)

theorem mem_dedupFirst {v : PyVal} {l : List PyVal} : v ∈ dedupFirst l ↔ v ∈ l := by
  rw [dedupFirst, mem_dedupFirstAux l []]
  simp

theorem dedupFirst_sublist (l : List PyVal) : (dedupFirst l).Sublist l :=
  dedupFirstAux_sublist l []

theorem dedupFirst_nodup (l : List PyVal) : (dedupFirst l).Nodup :=
  dedupFirstAux_nodup l []

theorem dedupFirst_toFinset (l : List PyVal) :
    (dedupFirst l).toFinset = l.toFinset := by
  ext v
  simp only [List.mem_toFinset]
  exact mem_dedupFirst

theorem length_dedupFirst (l : List PyVal) :
    (dedupFirst l).length = l.toFinset.card := by
  rw [← dedupFirst_toFinset l, List.toFinset_card_of_nodup (dedupFirst_nodup l)]

theorem entity_recordForVal (agent : String → Except PyError String)
    (tmpl : String) (v : PyVal) : (recordForVal agent tmpl v).entity = v := by
  cases v with
  | str s =>
    rw [recordForVal, recordForStr]
    cases agent (pyReplace tmpl "{entity}" s) <;> rfl
  | int n => rfl

theorem extractLoop_map_of_all_str (agent : String → Except PyError String)
    (tmpl : String) :
    ∀ l : List PyVal, (∀ v ∈ l, v.isStr = true) →
      extractLoop agent tmpl l = .ok (l.map (recordForVal agent tmpl)) := by
  intro l
  induction l with
  | nil => intro _; rfl
  | cons e rest ih =>
    intro h
    have he := h e (List.mem_cons_self e rest)
    have hrest : ∀ v ∈ rest, v.isStr = true :=
      fun v hv => h v (List.mem_cons_of_mem e hv)
    cases e with
    | str s =>
      rw [extractLoop]
      simp only [replaceEntity, ih hrest, List.map_cons, recordForVal, recordForStr]
    | int n => simp [PyVal.isStr] at he

theorem extractLoop_error_of_exists_nonstr (agent : String → Except PyError String)
    (tmpl : String) :
    ∀ l : List PyVal, (∃ v ∈ l, v.isStr = false) →
      extractLoop agent tmpl l = .error .typeError := by
  intro l
  induction l with
  | nil => rintro ⟨v, hv, -⟩; cases hv
  | cons e rest ih =>
    rintro ⟨v, hv, hvs⟩
    cases e with
    | int n => rfl
    | str s =>
      have hvrest : v ∈ rest := by
        rcases List.mem_cons.mp hv with rfl | h
        · simp [PyVal.isStr] at hvs
        · exact h
      rw [extractLoop]
      simp only [replaceEntity, ih ⟨v, hvrest, hvs⟩]

theorem replaceList_of_not_occurs :
    ∀ s pat rep : List Char, occursIn pat s = false → replaceList pat rep s = s := by
  intro s
  induction s with
  | nil => intro pat rep _; rfl
  | cons c rest ih =>
    intro pat rep h
    rw [occursIn, Bool.or_eq_false_iff] at h
    rw [replaceList, if_neg, ih pat rep h.2]
    rintro ⟨-, hpre⟩
    rw [h.1] at hpre
    cases hpre

/-! ### Claim theorems -/

/-- Claim C1: for every input table and selected column (of string values,
the case the round-trip example describes; non-string columns are claim
C10's concern), the batch extraction driver produces exactly one extraction
record per distinct value of the selected column, and the records appear in
first-occurrence order of those values in the source table — the entity list
of the output is exactly `df[main_column].unique()`: a duplicate-free
sublist of the column containing every value of the column. -/
theorem c1_batch_driver_one_record_per_distinct_value
    (agent : String → Except PyError String) (tmpl : String)
    (column : List PyVal) (h : ∀ v ∈ column, v.isStr = true) :
    ∃ recs : List ExtractionRecord,
      runExtraction agent tmpl column = .ok recs ∧
      recs.length = column.toFinset.card ∧
      recs.map ExtractionRecord.entity = dedupFirst column ∧
      (recs.map ExtractionRecord.entity).Sublist column ∧
      (recs.map ExtractionRecord.entity).Nodup ∧
      ∀ v : PyVal, v ∈ column ↔ v ∈ recs.map ExtractionRecord.entity := by
  have hd : ∀ v ∈ dedupFirst column, v.isStr = true :=
    fun v hv => h v (mem_dedupFirst.mp hv)
  have hmap : ((dedupFirst column).map (recordForVal agent tmpl)).map
      ExtractionRecord.entity = dedupFirst column := by
    simp only [List.map_map, Function.comp_def, entity_recordForVal, List.map_id']
  refine ⟨(dedupFirst column).map (recordForVal agent tmpl), ?_, ?_, hmap, ?_, ?_, ?_⟩
  · rw [runExtraction]
    exact extractLoop_map_of_all_str agent tmpl (dedupFirst column) hd
  · rw [List.length_map, length_dedupFirst]
  · rw [hmap]
    exact dedupFirst_sublist column
  · rw [hmap]
    exact dedupFirst_nodup column
  · intro v
    rw [hmap]
    exact mem_dedupFirst.symm

/-- Witness for C1 at the spec's round-trip example: column
`["A", "B", "A"]` and template `"find \x7bentity\x7d"` yield exactly two
records, for A and B in that order. -/
theorem c1_batch_driver_one_record_per_distinct_value_witness :
    ∃ recs : List ExtractionRecord,
      runExtraction alwaysOkAgent "find {entity}"
        [.str "A", .str "B", .str "A"] = .ok recs ∧
      recs.length = ([PyVal.str "A", .str "B", .str "A"] : List PyVal).toFinset.card ∧
      recs.map ExtractionRecord.entity = dedupFirst [.str "A", .str "B", .str "A"] ∧
      (recs.map ExtractionRecord.entity).Sublist [.str "A", .str "B", .str "A"] ∧
      (recs.map ExtractionRecord.entity).Nodup ∧
      ∀ v : PyVal, v ∈ ([PyVal.str "A", .str "B", .str "A"] : List PyVal) ↔
        v ∈ recs.map ExtractionRecord.entity :=
  c1_batch_driver_one_record_per_distinct_value alwaysOkAgent "find {entity}"
    [.str "A", .str "B", .str "A"] (by decide)

/-- Claim C2: if the agent invocation for the `i`-th distinct (string)
entity raises, the driver records the fixed marker string
`"Error during extraction"` for that entity and continues: the output still
has one record per distinct entity, each carrying its entity value. -/
theorem c2_agent_failure_isolated_per_entity
    (agent : String → Except PyError String) (tmpl : String)
    (column : List PyVal) (h : ∀ v ∈ column, v.isStr = true)
    (i : Nat) (s : String) (err : PyError)
    (hent : (dedupFirst column).get? i = some (.str s))
    (hfail : agent (pyReplace tmpl "{entity}" s) = .error err) :
    ∃ recs : List ExtractionRecord,
      runExtraction agent tmpl column = .ok recs ∧
      recs.length = (dedupFirst column).length ∧
      recs.get? i = some ⟨.str s, "Error during extraction"⟩ ∧
      ∀ (j : Nat) (v : PyVal), (dedupFirst column).get? j = some v →
        ∃ r : ExtractionRecord, recs.get? j = some r ∧ r.entity = v := by
  have hd : ∀ v ∈ dedupFirst column, v.isStr = true :=
    fun v hv => h v (mem_dedupFirst.mp hv)
  refine ⟨(dedupFirst column).map (recordForVal agent tmpl), ?_, ?_, ?_, ?_⟩
  · rw [runExtraction]
    exact extractLoop_map_of_all_str agent tmpl (dedupFirst column) hd
  · exact List.length_map _ _
  · rw [List.get?_map, hent, Option.map_some', recordForVal, recordForStr, hfail]
  · intro j v hjv
    exact ⟨recordForVal agent tmpl v, by rw [List.get?_map, hjv]; rfl,
      entity_recordForVal agent tmpl v⟩

/-- Witness for C2: with column `["A", "B"]`, template `"find \x7bentity\x7d"`
and an agent that raises exactly on `"find B"`, the record for B carries the
marker and A's record is still present. -/
theorem c2_agent_failure_isolated_per_entity_witness :
    ∃ recs : List ExtractionRecord,
      runExtraction failsOnBAgent "find {entity}" [.str "A", .str "B"] = .ok recs ∧
      recs.length = (dedupFirst [.str "A", .str "B"]).length ∧
      recs.get? 1 = some ⟨.str "B", "Error during extraction"⟩ ∧
      ∀ (j : Nat) (v : PyVal), (dedupFirst [.str "A", .str "B"]).get? j = some v →
        ∃ r : ExtractionRecord, recs.get? j = some r ∧ r.entity = v :=
  c2_agent_failure_isolated_per_entity failsOnBAgent "find {entity}"
    [.str "A", .str "B"] (by decide) 1 "B" PyError.exn (by decide) (by rfl)

/-- Claim C10: the template substitution happens outside the per-entity
`try/except`, so a column containing any non-string value makes
`str.replace` raise a `TypeError` that the per-entity handler does not
catch: the whole batch aborts with that exception instead of producing a
record list (in particular, no failure-marker record is produced). -/
theorem c10_nonstring_entity_aborts_whole_batch
    (agent : String → Except PyError String) (tmpl : String)
    (column : List PyVal) (h : ∃ v ∈ column, v.isStr = false) :
    runExtraction agent tmpl column = .error .typeError := by
  obtain ⟨v, hv, hvs⟩ := h
  exact extractLoop_error_of_exists_nonstr agent tmpl (dedupFirst column)
    ⟨v, mem_dedupFirst.mpr hv, hvs⟩

/-- Witness for C10: a column holding the integer 7 aborts the batch with a
`TypeError` even though the agent itself never raises. -/
theorem c10_nonstring_entity_aborts_whole_batch_witness :
    runExtraction alwaysOkAgent "find {entity}" [.str "A", .int 7] =
      .error .typeError :=
  c10_nonstring_entity_aborts_whole_batch alwaysOkAgent "find {entity}"
    [.str "A", .int 7] (by decide)

/-- Claim C4: `query_groq` never propagates an exception — it is a total
function into `String` — and for every prompt it returns the literal string
`"Error"` whenever the underlying API call raises, and the first choice's
response text on success. -/
theorem c4_query_groq_error_sentinel_and_first_choice
    (e : PyError) (comp : ChatCompletion) (c : Choice) (rest : List Choice)
    (hch : comp.choices = c :: rest) :
    query_groq (.error e) = "Error" ∧ query_groq (.ok comp) = c.content := by
  constructor
  · rfl
  · have h1 : choicesFirst comp = Except.ok c := by
      rw [choicesFirst, hch]
    simp only [query_groq]
    rw [show ((Except.ok comp : Except PyError ChatCompletion) >>= choicesFirst) =
      choicesFirst comp from rfl, h1]

/-- Witness for C4 at a raised exception and at a one-choice completion. -/
theorem c4_query_groq_error_sentinel_and_first_choice_witness :
    query_groq (.error PyError.exn) = "Error" ∧
    query_groq (.ok (ChatCompletion.mk [Choice.mk "hello"])) =
      (Choice.mk "hello").content :=
  c4_query_groq_error_sentinel_and_first_choice PyError.exn
    (ChatCompletion.mk [Choice.mk "hello"]) (Choice.mk "hello") [] rfl

/-- Claim C5: parsing the documentation's example URL yields exactly
`"SHEETID"` (the 6th `"/"`-separated segment), and every URL whose split has
fewer than 6 segments is treated as invalid — the `IndexError` is caught and
the block yields no spreadsheet id, with no unhandled exception escaping
(`parsedSpreadsheetId` is total). -/
theorem c5_spreadsheet_url_parsing
    (url : String) (hshort : (pySplit url '/').length < 6) :
    parsedSpreadsheetId "https://docs.google.com/spreadsheets/d/SHEETID/edit" =
      some "SHEETID" ∧
    parsedSpreadsheetId url = none := by
  constructor
  · rfl
  · have h5 : (pySplit url '/').get? 5 = none :=
      List.get?_eq_none.mpr (by omega)
    rw [parsedSpreadsheetId, extractSpreadsheetId, h5]

/-- Witness for C5: the short URL `"a/b"` splits into 2 segments and is
treated as invalid. -/
theorem c5_spreadsheet_url_parsing_witness :
    parsedSpreadsheetId "https://docs.google.com/spreadsheets/d/SHEETID/edit" =
      some "SHEETID" ∧
    parsedSpreadsheetId "a/b" = none :=
  c5_spreadsheet_url_parsing "a/b" (by decide)

/-- Claim C6: `search_web` returns the parsed result-item list on an HTTP
200 response (defaulting to `[]` when the `"organic_results"` key is
absent), the empty list on any non-200 status, and the empty list on any
raised transport exception; it is a total function, so no exception passes
its boundary. -/
theorem c6_search_web_list_or_empty
    (s1 : Nat) (org1 : Option (List ResultItem)) (h200 : s1 = 200)
    (s2 : Nat) (org2 : Option (List ResultItem)) (hne : s2 ≠ 200)
    (e : PyError) :
    search_web (.response s1 org1) = org1.getD [] ∧
    search_web (.response s2 org2) = [] ∧
    search_web (.exn e) = [] := by
  subst h200
  refine ⟨by rw [search_web, if_pos rfl], ?_, rfl⟩
  rw [search_web, if_neg hne]

/-- Witness for C6 at a 200 response with one result item, a 404 response,
and a raised exception. -/
theorem c6_search_web_list_or_empty_witness :
    search_web (.response 200 (some [ResultItem.mk [("title", "t")]])) =
      (some [ResultItem.mk [("title", "t")]]).getD [] ∧
    search_web (.response 404 none) = [] ∧
    search_web (.exn PyError.exn) = [] :=
  c6_search_web_list_or_empty 200 (some [ResultItem.mk [("title", "t")]]) rfl
    404 none (by decide) PyError.exn

/-- Claim C7: instantiating the prompt for a string entity is literal
substring replacement of the token `"\x7bentity\x7d"`, and when the token does
not occur in the template the template passes through unchanged with no
error raised (the call still returns `.ok`). -/
theorem c7_placeholder_absent_is_silent_noop
    (tmpl e : String) (habs : occursIn "{entity}".data tmpl.data = false) :
    replaceEntity tmpl (.str e) = .ok (pyReplace tmpl "{entity}" e) ∧
    pyReplace tmpl "{entity}" e = tmpl := by
  refine ⟨rfl, ?_⟩
  rw [pyReplace, replaceList_of_not_occurs tmpl.data "{entity}".data e.data habs]

/-- Witness for C7: a template without the placeholder is returned
unchanged. -/
theorem c7_placeholder_absent_is_silent_noop_witness :
    replaceEntity "find the email" (.str "Alice") =
      .ok (pyReplace "find the email" "{entity}" "Alice") ∧
    pyReplace "find the email" "{entity}" "Alice" = "find the email" :=
  c7_placeholder_absent_is_silent_noop "find the email" "Alice" (by decide)

/-- Claim C8: the two spreadsheet helpers have asymmetric failure
propagation.  `read_google_sheet` swallows every failure and returns no
data (`none`) — including the `IndexError` it raises itself on an absent or
empty `"values"` field — while `update_google_sheet` re-raises the caught
exception past its own boundary, returning `.error e` rather than absorbing
it. -/
theorem c8_read_swallows_update_reraises (e : PyError) (r : UpdateResult) :
    read_google_sheet (.error e) = none ∧
    read_google_sheet (.ok none) = none ∧
    read_google_sheet (.ok (some [])) = none ∧
    update_google_sheet (.error e) = .error e ∧
    update_google_sheet (.ok r) = .ok r :=
  ⟨rfl, rfl, rfl, rfl, rfl⟩

/-- Claim C9: when (and only when) results exist, the data source is Google
Sheets with a truthy spreadsheet id, and the user clicks the update button,
the sync step issues exactly one update call to the fixed range
`"Sheet1!C1"` whose data is the header row `["Entity", "Extracted Data"]`
followed by one row per extraction record in record order; without the
user's confirmation no call is issued. -/
theorem c9_sheet_sync_header_then_rows_to_fixed_range
    (sid : String) (hsid : sid ≠ "")
    (records : List ExtractionRecord) (hne : records ≠ []) :
    ∃ call : SheetUpdateCall,
      sheetSyncStep true (some sid) true records = some call ∧
      call.spreadsheet_id = sid ∧
      call.range_name = "Sheet1!C1" ∧
      call.data.length = records.length + 1 ∧
      call.data.get? 0 = some [.str "Entity", .str "Extracted Data"] ∧
      (∀ i : Nat, call.data.get? (i + 1) = (records.get? i).map rowOfRecord) ∧
      ∀ records2 : List ExtractionRecord,
        sheetSyncStep true (some sid) false records2 = none := by
  refine ⟨⟨sid, "Sheet1!C1",
    [[PyVal.str "Entity", PyVal.str "Extracted Data"]] ++ records.map rowOfRecord⟩,
    ?_, rfl, rfl, ?_, ?_, ?_, ?_⟩
  · rw [sheetSyncStep, if_pos ⟨hne, rfl, hsid, rfl⟩]
  · simp [List.length_map]
  · rfl
  · intro i
    show (List.map rowOfRecord records).get? i = (records.get? i).map rowOfRecord
    exact List.get?_map rowOfRecord records i
  · intro records2
    rw [sheetSyncStep, if_neg]
    rintro ⟨-, -, -, hclick⟩
    cases hclick

/-- Witness for C9 at a one-record result table. -/
theorem c9_sheet_sync_header_then_rows_to_fixed_range_witness :
    ∃ call : SheetUpdateCall,
      sheetSyncStep true (some "SHEETID") true
        [ExtractionRecord.mk (.str "A") "a@x.com"] = some call ∧
      call.spreadsheet_id = "SHEETID" ∧
      call.range_name = "Sheet1!C1" ∧
      call.data.length = [ExtractionRecord.mk (.str "A") "a@x.com"].length + 1 ∧
      call.data.get? 0 = some [.str "Entity", .str "Extracted Data"] ∧
      (∀ i : Nat, call.data.get? (i + 1) =
        ([ExtractionRecord.mk (.str "A") "a@x.com"].get? i).map rowOfRecord) ∧
      ∀ records2 : List ExtractionRecord,
        sheetSyncStep true (some "SHEETID") false records2 = none :=
  c9_sheet_sync_header_then_rows_to_fixed_range "SHEETID" (by decide)
    [ExtractionRecord.mk (.str "A") "a@x.com"] (by decide)
